import Mathlib

/-!
Shallow embedding of `src/autometrics/src/otel_push_exporter.rs`.

The module under verification is a configuration/lifecycle shim around the
OpenTelemetry OTLP push exporter.  Pure functions of the source are embedded
as Lean functions; the opaque external library calls (exporter construction,
provider shutdown) are modelled from the spec, with their doc comments
saying so.  Machine integers are `Nat` with explicit bounds (`u64` parsing
checks against `2 ^ 64 - 1`, as Rust's checked parse does).
-/

/-- Maximum value of a Rust `u64`: the parse in
`timeout_and_period_from_env_or_default` targets `u64` because
`Duration::from_secs` takes a `u64`. -/
def U64_MAX : Nat := 18446744073709551615

/-- Rust `std::time::Duration`, as used by this module: only whole seconds are
ever constructed (`Duration::from_secs`). -/
structure Duration where
  secs : Nat
deriving DecidableEq, Repr

/-- `Duration::from_secs`. -/
def Duration.from_secs (n : Nat) : Duration := ⟨n⟩

/-- `Duration::as_secs`. -/
def Duration.as_secs (d : Duration) : Nat := d.secs

/-- Modelled from the spec: `OTEL_EXPORTER_OTLP_TIMEOUT_DEFAULT`, the fixed
constant defined by the transport library (`opentelemetry_otlp`) as its
standard timeout default; the crate is not part of this repository.  The
crate defines it as 10 seconds; no claim depends on the numeric value. -/
def OTEL_EXPORTER_OTLP_TIMEOUT_DEFAULT : Duration := Duration.from_secs 10

/-- A Rust `OsString`: either valid Unicode (so `into_string` succeeds with
that text) or not (so `into_string` fails).  The code only observes an
`OsString` through `into_string().ok()`, so this two-case view is the whole
observable behavior. -/
inductive OsString where
  | unicode (s : String)
  | nonUnicode
deriving DecidableEq, Repr

/-- `OsString::into_string().ok()`: `some` of the text when the OS string is
valid Unicode, `none` otherwise. -/
def OsString.into_string_ok : OsString → Option String
  | .unicode s => some s
  | .nonUnicode => none

/-- A snapshot of the process environment: `std::env::var_os` as a function
from variable name to its (possibly non-Unicode) value. -/
def Env : Type := String → Option OsString

/-- Numeric value of an ASCII digit character (Rust `char::to_digit(10)` on a
digit). -/
def digitVal (c : Char) : Nat := c.toNat - '0'.toNat

/-- The digit-accumulation loop of Rust's `u64::from_str` (radix 10): each
step rejects a non-digit character and checks the running value against
`u64::MAX` (Rust uses `checked_mul`/`checked_add`; since the digit is
non-negative, checking `acc * 10 + d ≤ U64_MAX` is equivalent). -/
def parseDigits : Nat → List Char → Option Nat
  | acc, [] => some acc
  | acc, c :: rest =>
    if c.isDigit then
      let v := acc * 10 + digitVal c
      if v ≤ U64_MAX then parseDigits v rest else none
    else none

/-- Rust `u64::from_str` on the character list of the input: an empty string
fails, a single leading `'+'` is skipped (a `'-'` is rejected by the digit
check, as Rust rejects it for unsigned types), the digits must be non-empty,
and the value must fit in a `u64`. -/
def parseU64List : List Char → Option Nat
  | [] => none
  | c :: rest =>
    let ds := if c = '+' then rest else c :: rest
    if ds = [] then none else parseDigits 0 ds

/-- `str::parse::<u64>().ok()`, i.e. Rust `u64::from_str` with the error
discarded. -/
def parseU64 (s : String) : Option Nat := parseU64List s.data

/-- The unbounded decimal value of a digit list (specification-side helper:
what the string denotes, with no `u64` bound). -/
def natOfDigits : Nat → List Char → Nat
  | acc, [] => acc
  | acc, c :: rest => natOfDigits (acc * 10 + digitVal c) rest

/-- The non-negative integer a digit string denotes. -/
def decimalValue (s : String) : Nat := natOfDigits 0 s.data

/-- Name of the timeout environment variable (`OTEL_EXPORTER_TIMEOUT_ENV` in
the source). -/
def OTEL_EXPORTER_TIMEOUT_ENV : String := "OTEL_METRIC_EXPORT_TIMEOUT"

/-- Name of the interval environment variable (`OTEL_EXPORTER_INTERVAL_ENV`
in the source). -/
def OTEL_EXPORTER_INTERVAL_ENV : String := "OTEL_METRIC_EXPORT_INTERVAL"

/-- The chain
`std::env::var_os(name).and_then(|os| os.into_string().ok()).and_then(|s| s.parse().ok())`
applied to the looked-up value: `some n` exactly when the variable is set, is
valid Unicode, and parses as a `u64`. -/
def resolvedSecs (v : Option OsString) : Option Nat :=
  (v.bind OsString.into_string_ok).bind parseU64

/-- `timeout_and_period_from_env_or_default`: resolves the timeout from
`OTEL_METRIC_EXPORT_TIMEOUT` with fallback
`OTEL_EXPORTER_OTLP_TIMEOUT_DEFAULT.as_secs()`, and the period from
`OTEL_METRIC_EXPORT_INTERVAL` with fallback `60`, each via
`unwrap_or` on the `resolvedSecs` chain.  The environment snapshot is an
explicit argument (the Rust reads ambient process state). -/
def timeout_and_period_from_env_or_default (env : Env) : Duration × Duration :=
  let timeout := Duration.from_secs
    ((resolvedSecs (env OTEL_EXPORTER_TIMEOUT_ENV)).getD
      OTEL_EXPORTER_OTLP_TIMEOUT_DEFAULT.as_secs)
  let period := Duration.from_secs
    ((resolvedSecs (env OTEL_EXPORTER_INTERVAL_ENV)).getD 60)
  (timeout, period)

/-- `opentelemetry_otlp::Protocol`: the OTLP wire sub-protocol selected in the
export configuration. -/
inductive Protocol where
  | grpc
  | httpBinary
  | httpJson
deriving DecidableEq, Repr

/-- Which underlying transport constructor was invoked on the exporter
builder: `.with_http()` or `.with_tonic()` (gRPC). -/
inductive Transport where
  | http
  | tonic
deriving DecidableEq, Repr

/-- The fields of `opentelemetry_otlp::ExportConfig` that this module sets
(`endpoint`, `protocol`, `timeout`); `..Default::default()` in the source
fills nothing this module observes. -/
structure ExportConfig where
  endpoint : Option String
  protocol : Protocol
  timeout : Option Duration
deriving DecidableEq, Repr

/-- A built `opentelemetry_otlp::MetricExporter`, observed through the
transport and export configuration it was built with. -/
structure MetricExporter where
  transport : Transport
  config : ExportConfig
deriving DecidableEq, Repr

/-- `ExporterBuildError`: the single error kind surfaced by construction.
The payload records which build failed (the external error contents are
opaque to this module, which only propagates the value). -/
inductive ExporterBuildError where
  | buildFailure (transport : Transport) (config : ExportConfig)
deriving DecidableEq, Repr

/-- The opaque behavior of the external `opentelemetry_otlp` library:
whether `MetricExporter` construction succeeds for a given transport and
configuration (invalid endpoint, transport setup failure, resource
exhaustion are all decided inside the library, not by this module). -/
structure OtlpLib where
  buildOk : Transport → ExportConfig → Bool

/-- Modelled from the spec: the external exporter build chain
`MetricExporter::builder().with_http()/.with_tonic().with_export_config(cfg).build()`.
Construction either yields an exporter bound to exactly the given transport
and configuration, or fails with a `BuildError`; which of the two happens is
the library's opaque decision (`lib.buildOk`). -/
def buildExporter (lib : OtlpLib) (transport : Transport) (cfg : ExportConfig) :
    Except ExporterBuildError MetricExporter :=
  if lib.buildOk transport cfg then
    Except.ok { transport := transport, config := cfg }
  else
    Except.error (ExporterBuildError.buildFailure transport cfg)

/-- A built `opentelemetry_sdk::metrics::PeriodicReader`: the wrapped
exporter and the flush interval it was configured with. -/
structure PeriodicReader where
  exporter : MetricExporter
  interval : Duration
deriving DecidableEq, Repr

/-- `PeriodicReader::builder(exporter)` state: exporter plus the interval,
which starts at the SDK default of 60 seconds until `.with_interval` is
called. -/
structure PeriodicReaderBuilder where
  exporter : MetricExporter
  interval : Duration
deriving DecidableEq, Repr

/-- `PeriodicReader::builder(exporter)`. -/
def PeriodicReader.builder (e : MetricExporter) : PeriodicReaderBuilder :=
  { exporter := e, interval := Duration.from_secs 60 }

/-- `PeriodicReaderBuilder::with_interval`. -/
def PeriodicReaderBuilder.with_interval (b : PeriodicReaderBuilder) (d : Duration) :
    PeriodicReaderBuilder :=
  { b with interval := d }

/-- `PeriodicReaderBuilder::build`. -/
def PeriodicReaderBuilder.build (b : PeriodicReaderBuilder) : PeriodicReader :=
  { exporter := b.exporter, interval := b.interval }

/-- `opentelemetry_sdk::metrics::SdkMeterProvider`, observed through the
readers attached to it and its shutdown lifecycle.  `isShutdown` is the
library's internal already-shut-down state (the spec notes the external
library errors on double-shutdown); `shutdownCalls` is ghost instrumentation
counting how many times `shutdown` has been invoked on this provider, used
to state the exactly-once claims. -/
structure SdkMeterProvider where
  readers : List PeriodicReader
  isShutdown : Bool
  shutdownCalls : Nat
deriving DecidableEq, Repr

/-- `opentelemetry_sdk::metrics::MeterProviderBuilder`: the readers attached
so far via `.with_reader`. -/
structure MeterProviderBuilder where
  readers : List PeriodicReader
deriving DecidableEq, Repr

/-- `SdkMeterProvider::builder()`. -/
def SdkMeterProvider.builder : MeterProviderBuilder := { readers := [] }

/-- `MeterProviderBuilder::with_reader`: attaches one more reader. -/
def MeterProviderBuilder.with_reader (b : MeterProviderBuilder) (r : PeriodicReader) :
    MeterProviderBuilder :=
  { readers := b.readers ++ [r] }

/-- `MeterProviderBuilder::build`: a fresh provider with the attached
readers, not shut down, with no shutdown calls recorded. -/
def MeterProviderBuilder.build (b : MeterProviderBuilder) : SdkMeterProvider :=
  { readers := b.readers, isShutdown := false, shutdownCalls := 0 }

/-- The `OTelSdkError` the external SDK returns from a redundant shutdown. -/
inductive OTelSdkError where
  | alreadyShutdown
deriving DecidableEq, Repr

/-- Modelled from the spec: `SdkMeterProvider::shutdown` of the external SDK,
which succeeds the first time and errors on every later call ("the external
library itself errors on double-shutdown").  Returns the provider's next
state paired with the call's result; the ghost call counter increments on
every invocation. -/
def SdkMeterProvider.shutdown (p : SdkMeterProvider) :
    SdkMeterProvider × Except OTelSdkError Unit :=
  if p.isShutdown then
    ({ p with shutdownCalls := p.shutdownCalls + 1 }, Except.error OTelSdkError.alreadyShutdown)
  else
    ({ p with isShutdown := true, shutdownCalls := p.shutdownCalls + 1 }, Except.ok ())

/-- `OtelMeterProvider`: the `#[repr(transparent)]` newtype handle around
`SdkMeterProvider` — its one field is the wrapped provider; it holds no
other state. -/
structure OtelMeterProvider where
  inner : SdkMeterProvider
deriving DecidableEq, Repr

/-- `impl Deref for OtelMeterProvider`: `&self.0`, the wrapped provider
itself. -/
def OtelMeterProvider.deref (h : OtelMeterProvider) : SdkMeterProvider :=
  h.inner

/-- `impl Drop for OtelMeterProvider`: `let _ = self.0.shutdown();` — one
call to the wrapped provider's shutdown, whose `Result` is discarded.  The
function's value is the provider's state after the drop; that its type has
no error alternative embeds that nothing is propagated and nothing
panics. -/
def OtelMeterProvider.drop (h : OtelMeterProvider) : SdkMeterProvider :=
  (h.inner.shutdown).1

/-- `runtime()`: `SdkMeterProvider::builder()`. -/
def runtime : MeterProviderBuilder := SdkMeterProvider.builder

/-- `init_http_with_timeout_period`: build an HTTP-transport exporter with
endpoint `url`, protocol `HttpBinary` and the given timeout, wrap it in a
periodic reader with the given interval, attach the reader to a fresh
provider and wrap the provider in the drop handle.  A build failure is
propagated by `?`. -/
def init_http_with_timeout_period (lib : OtlpLib) (url : String)
    (timeout period : Duration) : Except ExporterBuildError OtelMeterProvider := do
  let exporter ← buildExporter lib Transport.http
    { endpoint := some url, protocol := Protocol.httpBinary, timeout := some timeout }
  let reader := ((PeriodicReader.builder exporter).with_interval period).build
  return OtelMeterProvider.mk ((runtime.with_reader reader).build)

/-- `init_http`: resolve timeout and period from the environment, then
delegate to `init_http_with_timeout_period`. -/
def init_http (lib : OtlpLib) (env : Env) (url : String) :
    Except ExporterBuildError OtelMeterProvider :=
  let tp := timeout_and_period_from_env_or_default env
  init_http_with_timeout_period lib url tp.1 tp.2

/-- `init_grpc_with_timeout_period`: identical to the HTTP variant except
that the gRPC (tonic) transport constructor is invoked; it too sets
`Protocol.httpBinary`. -/
def init_grpc_with_timeout_period (lib : OtlpLib) (url : String)
    (timeout period : Duration) : Except ExporterBuildError OtelMeterProvider := do
  let exporter ← buildExporter lib Transport.tonic
    { endpoint := some url, protocol := Protocol.httpBinary, timeout := some timeout }
  let reader := ((PeriodicReader.builder exporter).with_interval period).build
  return OtelMeterProvider.mk ((runtime.with_reader reader).build)

/-- `init_grpc`: resolve timeout and period from the environment, then
delegate to `init_grpc_with_timeout_period`. -/
def init_grpc (lib : OtlpLib) (env : Env) (url : String) :
    Except ExporterBuildError OtelMeterProvider :=
  let tp := timeout_and_period_from_env_or_default env
  init_grpc_with_timeout_period lib url tp.1 tp.2

/-- Unfolding equation for `parseDigits` on the empty list. -/
lemma parseDigits_nil (acc : Nat) : parseDigits acc [] = some acc := rfl

/-- Unfolding equation for `parseDigits` on a cons. -/
lemma parseDigits_cons (acc : Nat) (c : Char) (rest : List Char) :
    parseDigits acc (c :: rest) =
      if c.isDigit then
        (if acc * 10 + digitVal c ≤ U64_MAX then parseDigits (acc * 10 + digitVal c) rest
         else none)
      else none := rfl

/-- Unfolding equation for `natOfDigits` on the empty list. -/
lemma natOfDigits_nil (acc : Nat) : natOfDigits acc [] = acc := rfl

/-- Unfolding equation for `natOfDigits` on a cons. -/
lemma natOfDigits_cons (acc : Nat) (c : Char) (rest : List Char) :
    natOfDigits acc (c :: rest) = natOfDigits (acc * 10 + digitVal c) rest := rfl

/-- Unfolding equation for `parseU64List` on a cons. -/
lemma parseU64List_cons (c : Char) (rest : List Char) :
    parseU64List (c :: rest) =
      if (if c = '+' then rest else c :: rest) = [] then none
      else parseDigits 0 (if c = '+' then rest else c :: rest) := rfl

/-- The accumulator never decreases along the digit fold. -/
lemma natOfDigits_le (cs : List Char) : ∀ acc : Nat, acc ≤ natOfDigits acc cs := by
  induction cs with
  | nil => intro acc; exact Nat.le_refl acc
  | cons c rest ih =>
    intro acc
    have h1 : acc ≤ acc * 10 + digitVal c := by omega
    rw [natOfDigits_cons]
    exact Nat.le_trans h1 (ih (acc * 10 + digitVal c))

/-- On an all-digit list with an in-range accumulator, the bounded parse loop
returns the unbounded decimal value exactly when it fits in a `u64`, and
`none` otherwise. -/
lemma parseDigits_eq (cs : List Char) :
    ∀ acc : Nat, (∀ c ∈ cs, c.isDigit = true) → acc ≤ U64_MAX →
      parseDigits acc cs =
        if natOfDigits acc cs ≤ U64_MAX then some (natOfDigits acc cs) else none := by
  induction cs with
  | nil =>
    intro acc _ hacc
    rw [parseDigits_nil, natOfDigits_nil, if_pos hacc]
  | cons c rest ih =>
    intro acc hdig hacc
    have hc : c.isDigit = true := hdig c (List.mem_cons_self c rest)
    have hrest : ∀ d ∈ rest, d.isDigit = true := fun d hd => hdig d (List.mem_cons_of_mem c hd)
    rw [parseDigits_cons, if_pos hc, natOfDigits_cons]
    by_cases hv : acc * 10 + digitVal c ≤ U64_MAX
    · rw [if_pos hv, ih (acc * 10 + digitVal c) hrest hv]
    · rw [if_neg hv]
      have hmono : acc * 10 + digitVal c ≤ natOfDigits (acc * 10 + digitVal c) rest :=
        natOfDigits_le rest (acc * 10 + digitVal c)
      have hgt : ¬ natOfDigits (acc * 10 + digitVal c) rest ≤ U64_MAX := by omega
      rw [if_neg hgt]

/-- `'+'` is not a digit. -/
lemma plus_not_digit : ('+').isDigit = false := by decide

/-- On a non-empty all-digit string, Rust's `u64` parse returns the string's
decimal value exactly when it fits in a `u64`, and fails otherwise. -/
lemma parseU64_digits (s : String) (hne : s.data ≠ [])
    (hdig : ∀ c ∈ s.data, c.isDigit = true) :
    parseU64 s =
      if decimalValue s ≤ U64_MAX then some (decimalValue s) else none := by
  obtain ⟨c, rest, hs⟩ := List.exists_cons_of_ne_nil hne
  have hc : c.isDigit = true := by
    apply hdig
    rw [hs]
    exact List.mem_cons_self c rest
  have hcne : ¬ c = '+' := by
    intro h
    rw [h, plus_not_digit] at hc
    exact Bool.false_ne_true hc
  unfold parseU64 decimalValue
  rw [hs, parseU64List_cons]
  simp only [if_neg hcne]
  rw [if_neg (List.cons_ne_nil c rest)]
  have hdig2 : ∀ d ∈ c :: rest, d.isDigit = true := by
    intro d hd
    apply hdig
    rw [hs]
    exact hd
  exact parseDigits_eq (c :: rest) 0 hdig2 (Nat.zero_le _)

example : parseU64 "30" = some 30 := by decide
example : parseU64 "" = none := by decide
example : parseU64 "+7" = some 7 := by decide
example : parseU64 "+" = none := by decide
example : parseU64 "-3" = none := by decide
example : parseU64 "1a" = none := by decide
example : parseU64 "18446744073709551615" = some (2 ^ 64 - 1) := by decide
example : parseU64 "18446744073709551616" = none := by decide

/-- Full characterization of `init_http_with_timeout_period`: success or
failure is decided by the library's exporter build, and on success the
returned handle wraps a fresh provider with exactly one reader. -/
lemma init_http_with_timeout_period_eq (lib : OtlpLib) (url : String) (t p : Duration) :
    init_http_with_timeout_period lib url t p =
      (if lib.buildOk Transport.http
          (ExportConfig.mk (some url) Protocol.httpBinary (some t)) then
        Except.ok (OtelMeterProvider.mk (SdkMeterProvider.mk
          [PeriodicReader.mk (MetricExporter.mk Transport.http
            (ExportConfig.mk (some url) Protocol.httpBinary (some t))) p] false 0))
      else
        Except.error (ExporterBuildError.buildFailure Transport.http
          (ExportConfig.mk (some url) Protocol.httpBinary (some t)))) := by
  by_cases hb : lib.buildOk Transport.http
      (ExportConfig.mk (some url) Protocol.httpBinary (some t)) = true
  · simp [init_http_with_timeout_period, buildExporter, hb, runtime, SdkMeterProvider.builder,
      MeterProviderBuilder.with_reader, MeterProviderBuilder.build, PeriodicReader.builder,
      PeriodicReaderBuilder.with_interval, PeriodicReaderBuilder.build]
  · simp [init_http_with_timeout_period, buildExporter, hb]

/-- Full characterization of `init_grpc_with_timeout_period`, mirroring the
HTTP variant with the tonic transport. -/
lemma init_grpc_with_timeout_period_eq (lib : OtlpLib) (url : String) (t p : Duration) :
    init_grpc_with_timeout_period lib url t p =
      (if lib.buildOk Transport.tonic
          (ExportConfig.mk (some url) Protocol.httpBinary (some t)) then
        Except.ok (OtelMeterProvider.mk (SdkMeterProvider.mk
          [PeriodicReader.mk (MetricExporter.mk Transport.tonic
            (ExportConfig.mk (some url) Protocol.httpBinary (some t))) p] false 0))
      else
        Except.error (ExporterBuildError.buildFailure Transport.tonic
          (ExportConfig.mk (some url) Protocol.httpBinary (some t)))) := by
  by_cases hb : lib.buildOk Transport.tonic
      (ExportConfig.mk (some url) Protocol.httpBinary (some t)) = true
  · simp [init_grpc_with_timeout_period, buildExporter, hb, runtime, SdkMeterProvider.builder,
      MeterProviderBuilder.with_reader, MeterProviderBuilder.build, PeriodicReader.builder,
      PeriodicReaderBuilder.with_interval, PeriodicReaderBuilder.build]
  · simp [init_grpc_with_timeout_period, buildExporter, hb]

/-- Claim C1: releasing (dropping) the handle invokes the wrapped provider's
shutdown exactly once (the ghost call counter rises by exactly one and the
provider ends shut down, whatever its prior state), and when shutdown had
already been invoked by another path the redundant invocation's error is
swallowed: `drop`'s result is the plain provider state, with no error
alternative to propagate and no panic, even though the underlying call
returns `Err` in that case. -/
theorem C1_drop_shutdown_exactly_once_error_swallowed :
    ∀ h : OtelMeterProvider,
      OtelMeterProvider.drop h =
        { readers := h.inner.readers, isShutdown := true,
          shutdownCalls := h.inner.shutdownCalls + 1 } ∧
      (h.inner.isShutdown = true →
        (h.inner.shutdown).2 = Except.error OTelSdkError.alreadyShutdown) := by
  intro h
  obtain ⟨⟨rs, sd, n⟩⟩ := h
  cases sd <;> simp [OtelMeterProvider.drop, SdkMeterProvider.shutdown]

/-- Witness for C1 at a concrete already-shut-down handle: the drop performs
a second underlying shutdown call (counter 1 → 2) whose error is
swallowed. -/
theorem C1_witness :
    OtelMeterProvider.drop (OtelMeterProvider.mk
      { readers := [], isShutdown := true, shutdownCalls := 1 }) =
      { readers := [], isShutdown := true, shutdownCalls := 2 } ∧
    ((OtelMeterProvider.mk
      { readers := [], isShutdown := true, shutdownCalls := 1 }).inner.shutdown).2 =
      Except.error OTelSdkError.alreadyShutdown := by
  have h := C1_drop_shutdown_exactly_once_error_swallowed (OtelMeterProvider.mk
    { readers := [], isShutdown := true, shutdownCalls := 1 })
  exact ⟨h.1, h.2 rfl⟩

/-- Claim C2: the environment-default resolution is a total function (its
type raises no error), and whenever a variable fails to resolve to a `u64`
number of seconds — unset, not valid Unicode, or not parsable — the
corresponding component is the documented fallback: the transport-library
timeout default for the timeout, 60 seconds for the period. -/
theorem C2_env_resolution_falls_back (env : Env) :
    (resolvedSecs (env OTEL_EXPORTER_TIMEOUT_ENV) = none →
      (timeout_and_period_from_env_or_default env).1 =
        Duration.from_secs OTEL_EXPORTER_OTLP_TIMEOUT_DEFAULT.as_secs) ∧
    (resolvedSecs (env OTEL_EXPORTER_INTERVAL_ENV) = none →
      (timeout_and_period_from_env_or_default env).2 = Duration.from_secs 60) := by
  constructor <;> intro h <;>
    simp [timeout_and_period_from_env_or_default, h]

/-- Witness for C2 at the empty environment: both variables are unset and
both components are their fallbacks. -/
theorem C2_witness :
    (timeout_and_period_from_env_or_default (fun _ => none)).1 =
      Duration.from_secs OTEL_EXPORTER_OTLP_TIMEOUT_DEFAULT.as_secs ∧
    (timeout_and_period_from_env_or_default (fun _ => none)).2 = Duration.from_secs 60 := by
  have h := C2_env_resolution_falls_back (fun _ => none)
  exact ⟨h.1 rfl, h.2 rfl⟩

/-- Claim C3: a variable set to a valid non-negative integer (a non-empty
all-digit string whose value fits in a `u64`) resolves to exactly that
integer number of whole seconds, for either variable. -/
theorem C3_valid_integer_resolves_exactly (s : String) (hne : s.data ≠ [])
    (hdig : ∀ c ∈ s.data, c.isDigit = true) (hle : decimalValue s ≤ U64_MAX) :
    ∀ env : Env,
      (env OTEL_EXPORTER_TIMEOUT_ENV = some (OsString.unicode s) →
        (timeout_and_period_from_env_or_default env).1 =
          Duration.from_secs (decimalValue s)) ∧
      (env OTEL_EXPORTER_INTERVAL_ENV = some (OsString.unicode s) →
        (timeout_and_period_from_env_or_default env).2 =
          Duration.from_secs (decimalValue s)) := by
  have hp : parseU64 s = some (decimalValue s) := by
    rw [parseU64_digits s hne hdig, if_pos hle]
  intro env
  constructor <;> intro h <;>
    simp [timeout_and_period_from_env_or_default, resolvedSecs, h,
      OsString.into_string_ok, hp]

/-- Witness for C3: with the timeout variable set to `"30"`, the resolved
timeout is exactly 30 seconds. -/
theorem C3_witness :
    (timeout_and_period_from_env_or_default
      (fun name => if name = OTEL_EXPORTER_TIMEOUT_ENV
        then some (OsString.unicode "30") else none)).1 =
      Duration.from_secs 30 := by
  have h := (C3_valid_integer_resolves_exactly "30" (by decide) (by decide) (by decide)
    (fun name => if name = OTEL_EXPORTER_TIMEOUT_ENV
      then some (OsString.unicode "30") else none)).1 (by simp)
  rw [h]
  have hd : decimalValue "30" = 30 := by decide
  rw [hd]

/-- Claim C4: the convenience entry points resolve timeout and period from
the environment and return exactly what the explicit-parameter variants
return on those resolved values, for every library behavior, environment
snapshot and destination, for both transports. -/
theorem C4_convenience_delegates_to_explicit (lib : OtlpLib) (env : Env) (url : String) :
    init_http lib env url =
      init_http_with_timeout_period lib url
        (timeout_and_period_from_env_or_default env).1
        (timeout_and_period_from_env_or_default env).2 ∧
    init_grpc lib env url =
      init_grpc_with_timeout_period lib url
        (timeout_and_period_from_env_or_default env).1
        (timeout_and_period_from_env_or_default env).2 :=
  ⟨rfl, rfl⟩

/-- Claim C5: whichever transport constructor is invoked, a successful
initialization yields a provider whose single reader's exporter was
configured with the same wire sub-protocol constant,
`Protocol.httpBinary`. -/
theorem C5_both_transports_same_protocol (lib : OtlpLib) (url : String)
    (t p : Duration) (h : OtelMeterProvider) :
    (init_http_with_timeout_period lib url t p = Except.ok h →
      h.inner.readers.map (fun r => r.exporter.config.protocol) = [Protocol.httpBinary]) ∧
    (init_grpc_with_timeout_period lib url t p = Except.ok h →
      h.inner.readers.map (fun r => r.exporter.config.protocol) = [Protocol.httpBinary]) := by
  constructor <;> intro heq
  · rw [init_http_with_timeout_period_eq] at heq
    split at heq
    · cases heq
      rfl
    · cases heq
  · rw [init_grpc_with_timeout_period_eq] at heq
    split at heq
    · cases heq
      rfl
    · cases heq

/-- Witness for C5: a concrete successful gRPC-variant initialization whose
reader nonetheless carries `Protocol.httpBinary`. -/
theorem C5_witness :
    (OtelMeterProvider.mk (SdkMeterProvider.mk
      [PeriodicReader.mk (MetricExporter.mk Transport.tonic
        (ExportConfig.mk (some "http://localhost:4317") Protocol.httpBinary
          (some (Duration.from_secs 5)))) (Duration.from_secs 10)] false
      0)).inner.readers.map (fun r => r.exporter.config.protocol) = [Protocol.httpBinary] :=
  (C5_both_transports_same_protocol (OtlpLib.mk fun _ _ => true) "http://localhost:4317"
    (Duration.from_secs 5) (Duration.from_secs 10)
    (OtelMeterProvider.mk (SdkMeterProvider.mk
      [PeriodicReader.mk (MetricExporter.mk Transport.tonic
        (ExportConfig.mk (some "http://localhost:4317") Protocol.httpBinary
          (some (Duration.from_secs 5)))) (Duration.from_secs 10)] false 0))).2 rfl

/-- Claim C6: a successful `init_*_with_timeout_period` call returns a handle
wrapping a fresh provider (not shut down, zero shutdown calls) that carries
exactly one periodic reader whose flush interval is the given period and
whose exporter is bound to the invoked transport with endpoint equal to the
given destination and request timeout equal to the given timeout. -/
theorem C6_explicit_init_builds_configured_provider (lib : OtlpLib) (url : String)
    (t p : Duration) (h : OtelMeterProvider) :
    (init_http_with_timeout_period lib url t p = Except.ok h →
      h.inner.readers =
        [PeriodicReader.mk (MetricExporter.mk Transport.http
          (ExportConfig.mk (some url) Protocol.httpBinary (some t))) p] ∧
      h.inner.isShutdown = false ∧ h.inner.shutdownCalls = 0) ∧
    (init_grpc_with_timeout_period lib url t p = Except.ok h →
      h.inner.readers =
        [PeriodicReader.mk (MetricExporter.mk Transport.tonic
          (ExportConfig.mk (some url) Protocol.httpBinary (some t))) p] ∧
      h.inner.isShutdown = false ∧ h.inner.shutdownCalls = 0) := by
  constructor <;> intro heq
  · rw [init_http_with_timeout_period_eq] at heq
    split at heq
    · cases heq
      exact ⟨rfl, rfl, rfl⟩
    · cases heq
  · rw [init_grpc_with_timeout_period_eq] at heq
    split at heq
    · cases heq
      exact ⟨rfl, rfl, rfl⟩
    · cases heq

/-- Witness for C6: a concrete successful HTTP-variant initialization with
endpoint `http://localhost:4318`, timeout 5s and period 10s. -/
theorem C6_witness :
    (OtelMeterProvider.mk (SdkMeterProvider.mk
      [PeriodicReader.mk (MetricExporter.mk Transport.http
        (ExportConfig.mk (some "http://localhost:4318") Protocol.httpBinary
          (some (Duration.from_secs 5)))) (Duration.from_secs 10)] false
      0)).inner.readers =
      [PeriodicReader.mk (MetricExporter.mk Transport.http
        (ExportConfig.mk (some "http://localhost:4318") Protocol.httpBinary
          (some (Duration.from_secs 5)))) (Duration.from_secs 10)] :=
  ((C6_explicit_init_builds_configured_provider (OtlpLib.mk fun _ _ => true)
    "http://localhost:4318" (Duration.from_secs 5) (Duration.from_secs 10)
    (OtelMeterProvider.mk (SdkMeterProvider.mk
      [PeriodicReader.mk (MetricExporter.mk Transport.http
        (ExportConfig.mk (some "http://localhost:4318") Protocol.httpBinary
          (some (Duration.from_secs 5)))) (Duration.from_secs 10)] false 0))).1 rfl).1

/-- Claim C7: construction is atomic — when the library's exporter build
succeeds the call returns a usable handle, and when it fails the call
returns exactly the build error, with nothing else created (the result is
the whole effect), for both transports. -/
theorem C7_construction_is_atomic (lib : OtlpLib) (url : String) (t p : Duration) :
    ((lib.buildOk Transport.http
        (ExportConfig.mk (some url) Protocol.httpBinary (some t)) = true →
      ∃ h, init_http_with_timeout_period lib url t p = Except.ok h) ∧
     (lib.buildOk Transport.http
        (ExportConfig.mk (some url) Protocol.httpBinary (some t)) = false →
      init_http_with_timeout_period lib url t p =
        Except.error (ExporterBuildError.buildFailure Transport.http
          (ExportConfig.mk (some url) Protocol.httpBinary (some t))))) ∧
    ((lib.buildOk Transport.tonic
        (ExportConfig.mk (some url) Protocol.httpBinary (some t)) = true →
      ∃ h, init_grpc_with_timeout_period lib url t p = Except.ok h) ∧
     (lib.buildOk Transport.tonic
        (ExportConfig.mk (some url) Protocol.httpBinary (some t)) = false →
      init_grpc_with_timeout_period lib url t p =
        Except.error (ExporterBuildError.buildFailure Transport.tonic
          (ExportConfig.mk (some url) Protocol.httpBinary (some t))))) := by
  refine ⟨⟨fun hb => ?_, fun hb => ?_⟩, ⟨fun hb => ?_, fun hb => ?_⟩⟩
  · rw [init_http_with_timeout_period_eq, if_pos hb]
    exact ⟨_, rfl⟩
  · rw [init_http_with_timeout_period_eq, if_neg (by rw [hb]; intro hc; cases hc)]
  · rw [init_grpc_with_timeout_period_eq, if_pos hb]
    exact ⟨_, rfl⟩
  · rw [init_grpc_with_timeout_period_eq, if_neg (by rw [hb]; intro hc; cases hc)]

/-- Witness for C7: with a library that always builds, the HTTP variant
succeeds; with one that never builds, it returns exactly the build error. -/
theorem C7_witness :
    (∃ h, init_http_with_timeout_period (OtlpLib.mk fun _ _ => true) "http://localhost:4318"
      (Duration.from_secs 5) (Duration.from_secs 10) = Except.ok h) ∧
    init_http_with_timeout_period (OtlpLib.mk fun _ _ => false) "http://localhost:4318"
      (Duration.from_secs 5) (Duration.from_secs 10) =
      Except.error (ExporterBuildError.buildFailure Transport.http
        (ExportConfig.mk (some "http://localhost:4318") Protocol.httpBinary
          (some (Duration.from_secs 5)))) :=
  ⟨(C7_construction_is_atomic (OtlpLib.mk fun _ _ => true) "http://localhost:4318"
      (Duration.from_secs 5) (Duration.from_secs 10)).1.1 rfl,
   (C7_construction_is_atomic (OtlpLib.mk fun _ _ => false) "http://localhost:4318"
      (Duration.from_secs 5) (Duration.from_secs 10)).1.2 rfl⟩

/-- Counterexample to claim C8 as stated: the handle is a transparent
newtype with no already-shut-down flag of its own, so no shutdown path
consults handle state before calling into the provider.  Concretely, for a
handle whose wrapped provider has already been shut down (ghost call count
1), dropping the handle invokes the provider's shutdown a second time — the
count becomes 2 and the call returns the double-shutdown error — which a
handle-maintained flag would have prevented. -/
theorem C8_counterexample :
    (OtelMeterProvider.drop (OtelMeterProvider.mk
      (SdkMeterProvider.mk [] true 1))).shutdownCalls = 2 ∧
    ((OtelMeterProvider.mk (SdkMeterProvider.mk [] true 1)).inner.shutdown).2 =
      Except.error OTelSdkError.alreadyShutdown :=
  ⟨rfl, rfl⟩

/-- Claim C8 as amended: the already-shut-down state lives in the wrapped
provider (the external SDK), not in the handle.  Dropping a handle whose
provider is already shut down still performs a redundant underlying
shutdown call — the ghost call count rises by one — and that call's
double-shutdown error is swallowed rather than prevented by any
handle-level flag. -/
theorem C8_amended_flag_in_provider_not_handle (p : SdkMeterProvider)
    (hp : p.isShutdown = true) :
    (OtelMeterProvider.drop (OtelMeterProvider.mk p)).shutdownCalls =
      p.shutdownCalls + 1 ∧
    (p.shutdown).2 = Except.error OTelSdkError.alreadyShutdown := by
  obtain ⟨rs, sd, n⟩ := p
  cases sd
  · cases hp
  · exact ⟨rfl, rfl⟩

/-- Witness for the amended C8 at a concrete already-shut-down provider. -/
theorem C8_amended_witness :
    (OtelMeterProvider.drop (OtelMeterProvider.mk
      (SdkMeterProvider.mk [] true 5))).shutdownCalls = 6 ∧
    ((SdkMeterProvider.mk [] true 5).shutdown).2 =
      Except.error OTelSdkError.alreadyShutdown :=
  C8_amended_flag_in_provider_not_handle (SdkMeterProvider.mk [] true 5) rfl

/-- Claim C9: the handle's deref is the wrapped provider itself — the very
same value, not a copy — so any operation invoked through the handle is the
operation on the wrapped provider. -/
theorem C9_deref_is_pass_through (h : OtelMeterProvider) :
    OtelMeterProvider.deref h = h.inner ∧
    ∀ {α : Type} (f : SdkMeterProvider → α),
      f (OtelMeterProvider.deref h) = f h.inner :=
  ⟨rfl, fun _ => rfl⟩

/-- Claim C10: a digit string denoting an integer beyond the 64-bit unsigned
range (`U64_MAX = 2 ^ 64 - 1`) fails the `u64` parse, so the resolution
falls back to the documented default for either variable instead of using,
saturating, or erroring on the out-of-range value. -/
theorem C10_out_of_range_falls_back (s : String) (hne : s.data ≠ [])
    (hdig : ∀ c ∈ s.data, c.isDigit = true) (hgt : U64_MAX < decimalValue s) :
    U64_MAX = 2 ^ 64 - 1 ∧
    parseU64 s = none ∧
    ∀ env : Env,
      (env OTEL_EXPORTER_TIMEOUT_ENV = some (OsString.unicode s) →
        (timeout_and_period_from_env_or_default env).1 =
          Duration.from_secs OTEL_EXPORTER_OTLP_TIMEOUT_DEFAULT.as_secs) ∧
      (env OTEL_EXPORTER_INTERVAL_ENV = some (OsString.unicode s) →
        (timeout_and_period_from_env_or_default env).2 = Duration.from_secs 60) := by
  have hp : parseU64 s = none := by
    rw [parseU64_digits s hne hdig, if_neg (by omega)]
  refine ⟨by norm_num [U64_MAX], hp, fun env => ⟨fun h => ?_, fun h => ?_⟩⟩ <;>
    simp [timeout_and_period_from_env_or_default, resolvedSecs, h,
      OsString.into_string_ok, hp]

/-- Witness for C10 at `2 ^ 64` written in decimal: the parse fails and the
timeout resolves to the fallback. -/
theorem C10_witness :
    parseU64 "18446744073709551616" = none ∧
    (timeout_and_period_from_env_or_default
      (fun name => if name = OTEL_EXPORTER_TIMEOUT_ENV
        then some (OsString.unicode "18446744073709551616") else none)).1 =
      Duration.from_secs OTEL_EXPORTER_OTLP_TIMEOUT_DEFAULT.as_secs := by
  have h := C10_out_of_range_falls_back "18446744073709551616" (by decide) (by decide)
    (by decide)
  exact ⟨h.2.1, (h.2.2 (fun name => if name = OTEL_EXPORTER_TIMEOUT_ENV
    then some (OsString.unicode "18446744073709551616") else none)).1 (by simp)⟩
